import Mathlib

/-!
Verification of the rusty_pomo Pomodoro timer core (src/state.rs, src/args.rs,
src/theme.rs, src/notifications.rs) against its specification.

Embedding conventions:
  * `Instant` is modelled as a `Nat` timestamp (whole seconds on the host's
    monotonic clock); `Instant::saturating_duration_since` is truncated `Nat`
    subtraction, which saturates at zero exactly like the Rust method.
  * `Duration` is modelled as a `Nat` number of whole seconds: every duration
    the program constructs goes through `Duration::from_secs`.
  * Rust `u64` fields hold values below `2 ^ 64`; the one u64 operation whose
    overflow a claim is about — the unchecked multiplication `minutes * 60` in
    `AppState::new` and `AppState::advance_phase` — is modelled with an explicit
    wrap `% 2 ^ 64` (`mulMinutes60`).
  * Rust methods that read `Instant::now()` internally take the timestamp as an
    explicit `now` argument.
  * A Rust panic (here: `session_index % long_every` with `long_every == 0` in
    `advance_phase`) is modelled by returning `none`.
  * The fire-and-forget desktop notification of `maybe_notify` is modelled as
    an emitted event list: each mutating operation returns the successor state
    paired with the list of phase kinds it notified about.
  * `f64` arithmetic in `progress` is modelled by exact rationals (`ℚ`);
    `f64::max` and `f64::clamp` on non-NaN inputs are `max` and `rustClamp`.
-/

namespace RustyPomo

/-- Enum `Theme` from src/theme.rs (colour data is rendering-only glue and is
not modelled). -/
inductive Theme
  | Dracula
  | SolarizedDark
  | GruvboxDark
deriving DecidableEq

/-- Enum `PhaseKind` from src/state.rs. -/
inductive PhaseKind
  | Focus
  | ShortBreak
  | LongBreak
deriving DecidableEq

/-- Struct `Phase` from src/state.rs: `duration` is a `Duration` in whole
seconds. -/
structure Phase where
  kind : PhaseKind
  duration : Nat
deriving DecidableEq

/-- Struct `Args` from src/args.rs: the CLI configuration. `focus`, `short`,
`long`, `long_every` and `notification_seconds` are u64 minute/second counts
(held as `Nat`; clap performs no range validation beyond u64 parsing). -/
structure Args where
  focus : Nat
  short : Nat
  long : Nat
  long_every : Nat
  theme : Theme
  notifications : Bool
  notification_sound : Option String
  notification_seconds : Nat
  macos_bundle_id : Option String
deriving DecidableEq

/-- Struct `AppState` from src/state.rs. `phase_started_at` and `paused_at`
are `Instant`s (Nat timestamps). -/
structure AppState where
  args : Args
  theme : Theme
  session_index : Nat
  current_phase : Phase
  phase_started_at : Nat
  paused : Bool
  paused_at : Option Nat
deriving DecidableEq

/-- The u64 modulus. -/
def U64_MOD : Nat := 2 ^ 64

/-- The unchecked u64 multiplication `minutes * 60` feeding
`Duration::from_secs` in `AppState::new` and `AppState::advance_phase`
(src/state.rs lines 34, 96-98): wraps modulo `2 ^ 64`. -/
def mulMinutes60 (m : Nat) : Nat := (m * 60) % U64_MOD

/-- Largest u64 minute count for which `minutes * 60` does not overflow. -/
def maxMinutes : Nat := (2 ^ 64 - 1) / 60

/-- Function `maybe_notify` from src/notifications.rs, as the event it emits:
when notifications are enabled it dispatches exactly one desktop notification
whose title and body are keyed by the current phase kind; its platform outcome
is ignored by the core. -/
def maybe_notify (app : AppState) : List PhaseKind :=
  if app.args.notifications then [app.current_phase.kind] else []

namespace AppState

/-- Method `AppState::new` (src/state.rs lines 32-44). -/
def new (args : Args) (now : Nat) : AppState :=
  { args := args
    theme := args.theme
    session_index := 0
    current_phase := { kind := PhaseKind.Focus, duration := mulMinutes60 args.focus }
    phase_started_at := now
    paused := false
    paused_at := none }

/-- Method `AppState::elapsed_in_phase` (src/state.rs lines 46-52). -/
def elapsed_in_phase (s : AppState) (now : Nat) : Nat :=
  if s.paused then
    match s.paused_at with
    | some paused_at => paused_at - s.phase_started_at
    | none => 0
  else
    now - s.phase_started_at

/-- Method `AppState::time_remaining` (src/state.rs lines 54-56):
`Duration::saturating_sub` is truncated Nat subtraction. -/
def time_remaining (s : AppState) (now : Nat) : Nat :=
  s.current_phase.duration - s.elapsed_in_phase now

/-- Behaviour of Rust `f64::clamp(self, lo, hi)` on non-NaN inputs: `lo` when
below, `hi` when above, the value itself otherwise. -/
def rustClamp (x lo hi : ℚ) : ℚ :=
  if x < lo then lo else if x > hi then hi else x

/-- Method `AppState::progress` (src/state.rs lines 58-62), with `f64`
modelled by exact rationals. -/
def progress (s : AppState) (now : Nat) : ℚ :=
  let elapsed : ℚ := (s.elapsed_in_phase now : ℚ)
  let total : ℚ := max ((s.current_phase.duration : ℚ)) 1
  rustClamp (elapsed / total) 0 1

/-- Method `AppState::toggle_pause` (src/state.rs lines 64-75); `now` is the
`Instant::now()` it reads. It emits no notification. -/
def toggle_pause (s : AppState) (now : Nat) : AppState × List PhaseKind :=
  if s.paused then
    match s.paused_at with
    | some paused_at =>
        ({ s with phase_started_at := s.phase_started_at + (now - paused_at)
                  paused := false
                  paused_at := none }, [])
    | none => ({ s with paused := false }, [])
  else
    ({ s with paused := true, paused_at := some now }, [])

/-- Method `AppState::reset_phase` (src/state.rs lines 81-85); `now` is the
`Instant::now()` it reads. It emits no notification. -/
def reset_phase (s : AppState) (now : Nat) : AppState × List PhaseKind :=
  ({ s with phase_started_at := now
            paused := false
            paused_at := none }, [])

/-- Method `AppState::advance_phase` (src/state.rs lines 87-102); `now` is the
`Instant::now()` read by the inner `reset_phase` call. Returns `none` for the
Rust panic `session_index % 0` when `long_every == 0`, and otherwise the
successor state paired with the notification events emitted. -/
def advance_phase (s : AppState) (now : Nat) : Option (AppState × List PhaseKind) :=
  let next : Option (Nat × PhaseKind) :=
    match s.current_phase.kind with
    | PhaseKind.Focus =>
        let session_index := s.session_index + 1
        if s.args.long_every = 0 then none
        else if session_index % s.args.long_every = 0 then
          some (session_index, PhaseKind.LongBreak)
        else
          some (session_index, PhaseKind.ShortBreak)
    | PhaseKind.ShortBreak => some (s.session_index, PhaseKind.Focus)
    | PhaseKind.LongBreak => some (s.session_index, PhaseKind.Focus)
  match next with
  | none => none
  | some (si, next_kind) =>
      let current_phase : Phase :=
        match next_kind with
        | PhaseKind.Focus =>
            { kind := PhaseKind.Focus, duration := mulMinutes60 s.args.focus }
        | PhaseKind.ShortBreak =>
            { kind := PhaseKind.ShortBreak, duration := mulMinutes60 s.args.short }
        | PhaseKind.LongBreak =>
            { kind := PhaseKind.LongBreak, duration := mulMinutes60 s.args.long }
      let reset := reset_phase { s with session_index := si, current_phase := current_phase } now
      some (reset.1, reset.2 ++ maybe_notify reset.1)

/-- Method `AppState::skip` (src/state.rs lines 77-79): it just calls
`advance_phase`. -/
def skip (s : AppState) (now : Nat) : Option (AppState × List PhaseKind) :=
  s.advance_phase now

end AppState

/-- The spec's description of the elapsed value frozen while paused:
`paused_at - phase_started_at`, and zero when `paused_at` is absent. -/
def frozenElapsed (s : AppState) : Nat :=
  match s.paused_at with
  | some paused_at => paused_at - s.phase_started_at
  | none => 0

/-- The spec's pause invariant: `paused_at` is set if and only if `paused` is
true. -/
def pausedInv (s : AppState) : Prop :=
  s.paused_at.isSome = s.paused

/-- `pausedInv` lifted over the result of a fallible operation (trivially true
for the panic case, where no successor state exists). -/
def pausedInvOpt : Option (AppState × List PhaseKind) → Prop
  | none => True
  | some r => pausedInv r.1

/-- The successor state, dropping the notification events. -/
def advance1 (s : AppState) (now : Nat) : Option AppState :=
  (s.advance_phase now).map Prod.fst

/-- Pair observed by the C2 scenario: current phase kind and session index. -/
def kindIdx (s : AppState) : PhaseKind × Nat :=
  (s.current_phase.kind, s.session_index)

/-- The spec's phase-transition rule, as a relation between a state and the
successor `advance_phase` produces from it. -/
def advanceSpec (s r : AppState) : Prop :=
  (s.current_phase.kind = PhaseKind.Focus →
      r.session_index = s.session_index + 1
    ∧ ((s.session_index + 1) % s.args.long_every = 0 →
        r.current_phase = { kind := PhaseKind.LongBreak, duration := mulMinutes60 s.args.long })
    ∧ ((s.session_index + 1) % s.args.long_every ≠ 0 →
        r.current_phase = { kind := PhaseKind.ShortBreak, duration := mulMinutes60 s.args.short }))
  ∧ (s.current_phase.kind ≠ PhaseKind.Focus →
      r.session_index = s.session_index
    ∧ r.current_phase = { kind := PhaseKind.Focus, duration := mulMinutes60 s.args.focus })

/-- `advanceSpec` lifted over the optional successor: the transition must
succeed and satisfy the rule. -/
def advanceSpecOpt (s : AppState) : Option AppState → Prop
  | none => False
  | some r => advanceSpec s r

/-- The configuration of the spec's transition scenario and of the unit tests
in src/state.rs (`make_args`): focus=1, short=1, long=2, long_every=2. -/
def argsScenario : Args :=
  { focus := 1
    short := 1
    long := 2
    long_every := 2
    theme := Theme.Dracula
    notifications := false
    notification_sound := none
    notification_seconds := 1
    macos_bundle_id := none }

/-- An invalid configuration: `long_every = 0`. -/
def argsZero : Args :=
  { argsScenario with long_every := 0 }

/-- Concrete witness state: freshly constructed at time 0 from the scenario
configuration (Focus phase of 60 seconds, running). -/
def sW : AppState :=
  AppState.new argsScenario 0

/-- Helper: Rust's clamp to the unit interval is the usual mathematical clamp
`min (max x 0) 1`. -/
theorem rustClamp_zero_one (x : ℚ) :
    AppState.rustClamp x 0 1 = min (max x 0) 1 := by
  unfold AppState.rustClamp
  split_ifs with h1 h2
  · rw [max_eq_right (le_of_lt h1), min_eq_left]
    exact zero_le_one
  · rw [max_eq_left (le_trans zero_le_one (le_of_lt h2)), min_eq_right (le_of_lt h2)]
  · rw [max_eq_left (le_of_not_lt h1), min_eq_left (le_of_not_gt h2)]

/-- Claim C3: `elapsed_in_phase` computes elapsed time exactly as specified:
while paused it returns the frozen value `paused_at - phase_started_at`
(saturating; zero when `paused_at` is absent), independent of `now`, so any
two queries while paused agree; while running it returns
`now - phase_started_at` floored at zero (in particular zero when `now`
predates `phase_started_at`). -/
theorem c3_elapsed_in_phase (s : AppState) (now now2 : Nat) :
    (s.paused = true → s.elapsed_in_phase now = frozenElapsed s)
  ∧ (s.paused = true → s.elapsed_in_phase now = s.elapsed_in_phase now2)
  ∧ (s.paused = false → s.elapsed_in_phase now = now - s.phase_started_at)
  ∧ (s.paused = false → now ≤ s.phase_started_at → s.elapsed_in_phase now = 0) := by
  unfold AppState.elapsed_in_phase frozenElapsed
  cases hp : s.paused <;> simp
  omega

/-- Claim C4: `time_remaining` is the saturating difference
`duration - elapsed`, and while running, with `now` past the phase start and
the phase not yet over, elapsed and remaining time partition the phase
duration. -/
theorem c4_time_remaining (s : AppState) (now : Nat)
    (hp : s.paused = false) (hstart : s.phase_started_at ≤ now)
    (hin : s.elapsed_in_phase now ≤ s.current_phase.duration) :
    s.time_remaining now = s.current_phase.duration - s.elapsed_in_phase now
  ∧ s.elapsed_in_phase now + s.time_remaining now = s.current_phase.duration := by
  refine ⟨rfl, ?_⟩
  unfold AppState.time_remaining
  omega

/-- Witness for C4 at the fresh scenario state and `now = 30` (half of the
60-second Focus phase). -/
theorem c4_time_remaining_witness :
    sW.paused = false
  ∧ sW.phase_started_at ≤ 30
  ∧ sW.elapsed_in_phase 30 ≤ sW.current_phase.duration
  ∧ (sW.time_remaining 30 = sW.current_phase.duration - sW.elapsed_in_phase 30
     ∧ sW.elapsed_in_phase 30 + sW.time_remaining 30 = sW.current_phase.duration) :=
  ⟨by decide, by decide, by decide,
   c4_time_remaining sW 30 (by decide) (by decide) (by decide)⟩

/-- Claim C7: `skip` is unconditionally the phase transition `advance_phase`
performs — the very same function of the state and the clock, with no
precondition on remaining time. -/
theorem c7_skip_is_advance_phase (s : AppState) (now : Nat) :
    s.skip now = s.advance_phase now := rfl

/-- Claim C8: `reset_phase` sets `phase_started_at` to now, `paused` to
false and `paused_at` to `None`, leaves phase kind, phase duration,
session index, configuration and theme unchanged, and emits no
notification. -/
theorem c8_reset_phase_frame (s : AppState) (now : Nat) :
    (s.reset_phase now).1.phase_started_at = now
  ∧ (s.reset_phase now).1.paused = false
  ∧ (s.reset_phase now).1.paused_at = none
  ∧ (s.reset_phase now).1.current_phase = s.current_phase
  ∧ (s.reset_phase now).1.session_index = s.session_index
  ∧ (s.reset_phase now).1.args = s.args
  ∧ (s.reset_phase now).1.theme = s.theme
  ∧ (s.reset_phase now).2 = [] :=
  ⟨rfl, rfl, rfl, rfl, rfl, rfl, rfl, rfl⟩

/-- Counterexample to C1 as stated: constructing from `argsZero`
(long_every = 0) neither fails nor clamps — the state keeps
`long_every = 0` — and the very next `advance_phase` from the initial Focus
phase faults (the Rust panic on `session_index % 0`, modelled as `none`). -/
theorem c1_counterexample :
    (AppState.new argsZero 0).args.long_every = 0
  ∧ (AppState.new argsZero 0).current_phase.kind = PhaseKind.Focus
  ∧ (AppState.new argsZero 0).advance_phase 0 = none := by
  decide

/-- Claim C1 as amended: construction performs no validation — `new` always
succeeds and stores the configuration unchanged, even with
`long_every = 0` — and with such a configuration `advance_phase` from the
initial Focus phase faults on the zero divisor (Rust panic, modelled as
`none`). -/
theorem c1_new_no_validation (args : Args) (now t : Nat)
    (h : args.long_every = 0) :
    (AppState.new args now).args = args
  ∧ (AppState.new args now).current_phase.kind = PhaseKind.Focus
  ∧ (AppState.new args now).advance_phase t = none := by
  refine ⟨rfl, rfl, ?_⟩
  unfold AppState.advance_phase
  simp [AppState.new, h]

/-- Witness for C1's amended claim at the concrete configuration
`argsZero`. -/
theorem c1_new_no_validation_witness :
    argsZero.long_every = 0
  ∧ ((AppState.new argsZero 0).args = argsZero
     ∧ (AppState.new argsZero 0).current_phase.kind = PhaseKind.Focus
     ∧ (AppState.new argsZero 0).advance_phase 7 = none) :=
  ⟨by decide, c1_new_no_validation argsZero 0 7 (by decide)⟩

/-- Claim C5: `toggle_pause` is a mode round-trip preserving elapsed time:
pausing a running state at `t1` sets `paused` and records `paused_at = t1`
(leaving the phase start alone); toggling again at `t2 ≥ t1` adds the pause
span `t2 - t1` to `phase_started_at`, clears `paused` and `paused_at` — back
to the original running mode — and the elapsed time immediately after resume
equals the elapsed time immediately before pause. -/
theorem c5_toggle_pause_roundtrip (s : AppState) (t1 t2 : Nat)
    (hrun : s.paused = false) (h12 : t1 ≤ t2) :
    (s.toggle_pause t1).1.paused = true
  ∧ (s.toggle_pause t1).1.paused_at = some t1
  ∧ (s.toggle_pause t1).1.phase_started_at = s.phase_started_at
  ∧ ((s.toggle_pause t1).1.toggle_pause t2).1.paused = false
  ∧ ((s.toggle_pause t1).1.toggle_pause t2).1.paused_at = none
  ∧ ((s.toggle_pause t1).1.toggle_pause t2).1.phase_started_at
      = s.phase_started_at + (t2 - t1)
  ∧ ((s.toggle_pause t1).1.toggle_pause t2).1.elapsed_in_phase t2
      = s.elapsed_in_phase t1 := by
  unfold AppState.toggle_pause AppState.elapsed_in_phase
  simp [hrun]
  omega

/-- Witness for C5: pause the fresh scenario state at time 10 and resume at
time 25. -/
theorem c5_toggle_pause_roundtrip_witness :
    sW.paused = false
  ∧ 10 ≤ 25
  ∧ ((sW.toggle_pause 10).1.paused = true
     ∧ (sW.toggle_pause 10).1.paused_at = some 10
     ∧ (sW.toggle_pause 10).1.phase_started_at = sW.phase_started_at
     ∧ ((sW.toggle_pause 10).1.toggle_pause 25).1.paused = false
     ∧ ((sW.toggle_pause 10).1.toggle_pause 25).1.paused_at = none
     ∧ ((sW.toggle_pause 10).1.toggle_pause 25).1.phase_started_at
         = sW.phase_started_at + (25 - 10)
     ∧ ((sW.toggle_pause 10).1.toggle_pause 25).1.elapsed_in_phase 25
         = sW.elapsed_in_phase 10) :=
  ⟨by decide, by decide, c5_toggle_pause_roundtrip sW 10 25 (by decide) (by decide)⟩

/-- Claim C6: the invariant "paused_at is set iff paused" holds in the freshly
constructed state and is preserved by every operation: `new`, `toggle_pause`,
`reset_phase`, `skip` and `advance_phase` (for the last two, whenever they do
not fault). -/
theorem c6_paused_invariant (args : Args) (now : Nat) (s : AppState) (t : Nat)
    (h : pausedInv s) :
    pausedInv (AppState.new args now)
  ∧ pausedInv (s.toggle_pause t).1
  ∧ pausedInv (s.reset_phase t).1
  ∧ pausedInvOpt (s.skip t)
  ∧ pausedInvOpt (s.advance_phase t) := by
  have hadv : pausedInvOpt (s.advance_phase t) := by
    unfold AppState.advance_phase
    cases hk : s.current_phase.kind <;>
      simp [AppState.reset_phase, maybe_notify] <;>
      split_ifs <;>
      simp [pausedInvOpt, pausedInv]
  refine ⟨rfl, ?_, rfl, hadv, hadv⟩
  unfold AppState.toggle_pause
  cases hp : s.paused <;> cases hpa : s.paused_at <;> simp [pausedInv]

/-- Witness for C6 at the fresh scenario state. -/
theorem c6_paused_invariant_witness :
    pausedInv sW
  ∧ (pausedInv (AppState.new argsScenario 0)
     ∧ pausedInv (sW.toggle_pause 3).1
     ∧ pausedInv (sW.reset_phase 3).1
     ∧ pausedInvOpt (sW.skip 3)
     ∧ pausedInvOpt (sW.advance_phase 3)) :=
  ⟨rfl, c6_paused_invariant argsScenario 0 sW 3 rfl⟩

/-- Claim C2: `advance_phase` implements the phase transition rule. For every
state whose configuration has a nonzero `long_every`, the transition succeeds
and satisfies `advanceSpec`: from Focus it increments `session_index` and
moves to LongBreak exactly when the incremented index is divisible by
`long_every` and to ShortBreak otherwise; from either break it moves to Focus
with `session_index` unchanged; the new phase carries the configured duration
for its kind. In particular, with focus=1, short=1, long=2, long_every=2,
three successive calls from the initial state yield ShortBreak with
session_index 1, then Focus, then LongBreak with session_index 2. -/
theorem c2_advance_phase_rule (s : AppState) (t : Nat)
    (h : s.args.long_every ≠ 0) :
    advanceSpecOpt s (advance1 s t)
  ∧ (advance1 (AppState.new argsScenario 0) 0).map kindIdx
      = some (PhaseKind.ShortBreak, 1)
  ∧ ((advance1 (AppState.new argsScenario 0) 0).bind
       (fun s1 => advance1 s1 1)).map kindIdx
      = some (PhaseKind.Focus, 1)
  ∧ (((advance1 (AppState.new argsScenario 0) 0).bind
       (fun s1 => advance1 s1 1)).bind
       (fun s2 => advance1 s2 2)).map kindIdx
      = some (PhaseKind.LongBreak, 2) := by
  refine ⟨?_, by decide, by decide, by decide⟩
  unfold advance1 AppState.advance_phase
  cases hk : s.current_phase.kind
  · by_cases hm : (s.session_index + 1) % s.args.long_every = 0 <;>
      simp [h, hm, AppState.reset_phase, advanceSpecOpt, advanceSpec, hk]
  · simp [AppState.reset_phase, advanceSpecOpt, advanceSpec, hk]
  · simp [AppState.reset_phase, advanceSpecOpt, advanceSpec, hk]

/-- Witness for C2 at the fresh scenario state and `t = 0`. -/
theorem c2_advance_phase_rule_witness :
    (AppState.new argsScenario 0).args.long_every ≠ 0
  ∧ (advanceSpecOpt (AppState.new argsScenario 0)
       (advance1 (AppState.new argsScenario 0) 0)
     ∧ (advance1 (AppState.new argsScenario 0) 0).map kindIdx
         = some (PhaseKind.ShortBreak, 1)
     ∧ ((advance1 (AppState.new argsScenario 0) 0).bind
          (fun s1 => advance1 s1 1)).map kindIdx
         = some (PhaseKind.Focus, 1)
     ∧ (((advance1 (AppState.new argsScenario 0) 0).bind
          (fun s1 => advance1 s1 1)).bind
          (fun s2 => advance1 s2 2)).map kindIdx
         = some (PhaseKind.LongBreak, 2)) :=
  ⟨by decide, c2_advance_phase_rule (AppState.new argsScenario 0) 0 (by decide)⟩

/-- Claim C9: for every state and timestamp, `progress` equals the elapsed
seconds divided by the duration in seconds floored at 1, clamped to the closed
unit interval; it always lies in `[0, 1]`, and the denominator is strictly
positive — never zero — even when the phase duration is zero. The `f64`
arithmetic of the source is modelled by exact rationals. -/
theorem c9_progress_clamped (s : AppState) (now : Nat) :
    s.progress now
      = min (max ((s.elapsed_in_phase now : ℚ)
                    / max ((s.current_phase.duration : ℚ)) 1) 0) 1
  ∧ 0 ≤ s.progress now
  ∧ s.progress now ≤ 1
  ∧ (0 : ℚ) < max ((s.current_phase.duration : ℚ)) 1 := by
  have hq : s.progress now
      = min (max ((s.elapsed_in_phase now : ℚ)
                    / max ((s.current_phase.duration : ℚ)) 1) 0) 1 := by
    unfold AppState.progress
    exact rustClamp_zero_one _
  refine ⟨hq, ?_, ?_, ?_⟩
  · rw [hq]
    exact le_min (le_max_right _ 0) zero_le_one
  · rw [hq]
    exact min_le_right _ 1
  · exact lt_of_lt_of_le zero_lt_one (le_max_right _ 1)

/-- Claim C10: phase durations are the configured minute count times 60 by
unchecked u64 multiplication (`mulMinutes60`, used by both `new` and
`advance_phase`). Whenever each configured minute value is at most
`maxMinutes = (2^64 - 1) / 60` the multiplication does not wrap — in
particular the constructed Focus duration is exactly `focus * 60` — while at
`maxMinutes + 1` the unguarded computation wraps modulo `2^64`. -/
theorem c10_duration_multiplication (args : Args) (now : Nat)
    (hf : args.focus ≤ maxMinutes) (hs : args.short ≤ maxMinutes)
    (hl : args.long ≤ maxMinutes) :
    (AppState.new args now).current_phase.duration = args.focus * 60
  ∧ mulMinutes60 args.focus = args.focus * 60
  ∧ mulMinutes60 args.short = args.short * 60
  ∧ mulMinutes60 args.long = args.long * 60
  ∧ mulMinutes60 (maxMinutes + 1) ≠ (maxMinutes + 1) * 60 := by
  have key : ∀ m : Nat, m ≤ maxMinutes → mulMinutes60 m = m * 60 := by
    intro m hm
    unfold mulMinutes60 U64_MOD
    unfold maxMinutes at hm
    apply Nat.mod_eq_of_lt
    calc m * 60 ≤ ((2 ^ 64 - 1) / 60) * 60 := Nat.mul_le_mul_right 60 hm
    _ ≤ 2 ^ 64 - 1 := Nat.div_mul_le_self _ 60
    _ < 2 ^ 64 := by norm_num
  refine ⟨key args.focus hf, key args.focus hf, key args.short hs,
          key args.long hl, ?_⟩
  decide

/-- Witness for C10 at the scenario configuration (1, 1 and 2 minutes). -/
theorem c10_duration_multiplication_witness :
    argsScenario.focus ≤ maxMinutes
  ∧ argsScenario.short ≤ maxMinutes
  ∧ argsScenario.long ≤ maxMinutes
  ∧ ((AppState.new argsScenario 0).current_phase.duration = argsScenario.focus * 60
     ∧ mulMinutes60 argsScenario.focus = argsScenario.focus * 60
     ∧ mulMinutes60 argsScenario.short = argsScenario.short * 60
     ∧ mulMinutes60 argsScenario.long = argsScenario.long * 60
     ∧ mulMinutes60 (maxMinutes + 1) ≠ (maxMinutes + 1) * 60) :=
  ⟨by decide, by decide, by decide,
   c10_duration_multiplication argsScenario 0 (by decide) (by decide) (by decide)⟩

end RustyPomo
